import Mathlib

/-
Verification development for the CasaBox storage-marketplace data layer.

The relational store is modelled as an explicit record of tables (lists of
rows) together with the auto-increment counters MySQL maintains for the
primary keys.  Each promise-wrapped store operation from the source becomes a
Lean function that threads the committed database state; an operation wrapped
in a begin/commit/rollback transaction returns the original state on every
rollback path.  A promise that can reject is given an Except return type
(error = rejection); an operation whose promise executor only ever resolves
is given a plain return type.

External dependencies (the validator email check, bcrypt hashing, the JS
Date-to-MySQL-string conversion) are abstracted into an environment of
opaque-to-the-model functions, mirroring the fact that the source delegates
those decisions entirely to libraries.  Query failures of the underlying
MySQL driver are injected through explicit Boolean fault flags, one per query
site, so that every error-handling branch of the source is reachable in the
model.
-/

namespace CasaBox

/-- External collaborators of the data layer: the validator library's
email-format check, bcrypt hashing (modelled as a deterministic hash so that
bcrypt.compare p h holds exactly when hashOf p = h), and the JS
Date / toISOString conversion used by formatMySqlDateTime. -/
structure Env where
  isEmail : String → Bool
  hashOf : String → String
  toMySql : String → String

/-- One row of the Address table. -/
structure Address where
  addressID : Nat
  streetName : String
  city : String
  postalCode : String
  deriving DecidableEq, Repr

/-- One row of the User table (columns touched by the modelled operations). -/
structure User where
  userID : Nat
  username : String
  passwordHash : String
  email : String
  role : String
  isVerified : Nat
  addressID : Nat
  lastLoginDate : Option Nat
  profilePictureURL : String
  registrationDate : Nat
  deriving DecidableEq, Repr

/-- One row of the Listing table.  The source dynamically picks the capacity
column (TotalCapacity_Slots for ItemSlot, CapacitySQMeter otherwise), so the
column not selected stays NULL, modelled with Option.  PricePerUnit is kept
as the raw string handed to the driver (the parseFloat conversion is a
floating-point detail outside the claims). -/
structure Listing where
  listingID : Nat
  providerID : Nat
  title : String
  description : String
  storageType : String
  totalCapacitySlots : Option Nat
  capacitySQMeter : Option Nat
  pricePerUnit : String
  priceUnit : String
  addressID : Nat
  creationDate : Nat
  status : String
  deriving DecidableEq, Repr

/-- One row of the Attachment table. -/
structure Attachment where
  listingID : Nat
  fileURL : String
  fileType : String
  uploadTimestamp : Nat
  isPrimary : Bool
  deriving DecidableEq, Repr

/-- One row of the Booking table. -/
structure Booking where
  bookingID : Nat
  listingID : Nat
  seekerID : Nat
  startDate : Option String
  endDate : Option String
  totalCost : Nat
  requestDate : Nat
  bookingStatus : String
  requestedCapacitySQMeters : Option Nat
  deriving DecidableEq, Repr

/-- One row of the BookingItem table. -/
structure BookingItem where
  bookingID : Nat
  categoryID : Nat
  quantity : Nat
  deriving DecidableEq, Repr

/-- The committed state of the relational store: the six tables and the
auto-increment counters for the four primary keys generated by inserts. -/
structure DB where
  addresses : List Address
  users : List User
  listings : List Listing
  attachments : List Attachment
  bookings : List Booking
  bookingItems : List BookingItem
  nextAddressID : Nat
  nextUserID : Nat
  nextListingID : Nat
  nextBookingID : Nat
  deriving DecidableEq, Repr

/-- A freshly provisioned database with empty tables. -/
def emptyDB : DB :=
  { addresses := [], users := [], listings := [], attachments := []
    bookings := [], bookingItems := []
    nextAddressID := 1, nextUserID := 1, nextListingID := 1, nextBookingID := 1 }

-- =============================================================
-- Address resolver (getOrCreateAddress)
-- =============================================================

/-- The address fields destructured from addressData by getOrCreateAddress.
A house number absent in JS (undefined, hence falsy) is modelled as "". -/
structure AddressInput where
  streetName : String
  city : String
  postalCode : String
  number : String
  deriving DecidableEq, Repr

/-- Street normalisation from the source:
(interpolation of number or "", a space, streetName).trim(). -/
def fullStreetName (number streetName : String) : String :=
  (number ++ " " ++ streetName).trim

/-- The exact-match predicate of the SELECT in getOrCreateAddress:
StreetName = ? AND City = ? AND PostalCode = ?. -/
def addrMatches (street city postal : String) (a : Address) : Bool :=
  a.streetName == street && a.city == city && a.postalCode == postal

/-- Fault flags for the two query sites of getOrCreateAddress. -/
structure AddrFaults where
  checkFail : Bool
  insertFail : Bool
  deriving DecidableEq, Repr

/-- Fault-free execution of the address resolver. -/
def noAddrFaults : AddrFaults := { checkFail := false, insertFail := false }

/-- getOrCreateAddress: looks up an exact match on the normalised street,
city and postal code; on a hit resolves with the existing AddressID, on a
miss inserts a new row and resolves with its auto-generated ID.  A driver
error at either query rejects the promise (Except.error). -/
def getOrCreateAddress (db : DB) (ad : AddressInput) (f : AddrFaults) :
    Except String (Nat × DB) :=
  let full := fullStreetName ad.number ad.streetName
  if f.checkFail then .error "address check query error"
  else
    match db.addresses.find? (addrMatches full ad.city ad.postalCode) with
    | some a => .ok (a.addressID, db)
    | none =>
      if f.insertFail then .error "address insert query error"
      else
        let newA : Address :=
          { addressID := db.nextAddressID, streetName := full
            city := ad.city, postalCode := ad.postalCode }
        .ok (db.nextAddressID,
          { db with addresses := db.addresses ++ [newA]
                    nextAddressID := db.nextAddressID + 1 })

-- =============================================================
-- Input validation helpers
-- =============================================================

/-- Character class of the password regex body [a-zA-Z\d@$!%*?&]. -/
def validPasswordChar (c : Char) : Bool :=
  c.isLower || c.isUpper || c.isDigit ||
    c == '@' || c == '$' || c == '!' || c == '%' || c == '*' || c == '?' || c == '&'

/-- validatePassword: the source regex demands at least one lowercase letter,
one uppercase letter and one digit (the three lookaheads), every character
drawn from the allowed class, and at least 8 characters. -/
def validatePassword (password : String) : Bool :=
  password.toList.any Char.isLower &&
  password.toList.any Char.isUpper &&
  password.toList.any Char.isDigit &&
  password.toList.all validPasswordChar &&
  decide (8 ≤ password.length)

/-- validateRole: an empty role is accepted (it will default), otherwise the
role must be one of the database enum values. -/
def validateRole (role : String) : Bool :=
  role == "" || role == "Admin" || role == "Provider" || role == "Seeker"

-- =============================================================
-- User lookups (promise-rejecting single queries)
-- =============================================================

/-- getUserByUsername: SELECT * FROM User WHERE Username = ?.  A driver error
rejects the promise. -/
def getUserByUsername (db : DB) (username : String) (queryFail : Bool) :
    Except String (List User) :=
  if queryFail then .error "query error"
  else .ok (db.users.filter (fun u => u.username == username))

/-- getUserByEmail: SELECT * FROM User WHERE Email = ?.  A driver error
rejects the promise. -/
def getUserByEmail (db : DB) (email : String) (queryFail : Bool) :
    Except String (List User) :=
  if queryFail then .error "query error"
  else .ok (db.users.filter (fun u => u.email == email))

-- =============================================================
-- createUser
-- =============================================================

/-- The request payload handed to createUser.  The function destructures only
username, password, email and the address fields; a role field supplied by
the client is present in the payload but never read.  String fields absent in
JS (undefined, falsy) are modelled as "". -/
structure UserInput where
  username : String
  password : String
  email : String
  streetName : String
  city : String
  postalCode : String
  number : String
  role : String
  deriving DecidableEq, Repr

/-- The data payload returned by a successful createUser. -/
structure CreatedUser where
  userId : Nat
  username : String
  email : String
  role : String
  deriving DecidableEq, Repr

/-- The resolution value of createUser. -/
structure CreateUserRes where
  success : Bool
  message : String
  data : Option CreatedUser
  deriving DecidableEq, Repr

/-- Fault flags for the fallible steps of createUser, in source order:
beginTransaction, the two duplicate-check queries, bcrypt.hash, the two
address queries, the User INSERT and the COMMIT. -/
structure CreateUserFaults where
  beginFail : Bool
  usernameCheckFail : Bool
  emailCheckFail : Bool
  hashFail : Bool
  addr : AddrFaults
  insertFail : Bool
  commitFail : Bool
  deriving DecidableEq, Repr

/-- Fault-free execution of createUser. -/
def noCreateUserFaults : CreateUserFaults :=
  { beginFail := false, usernameCheckFail := false, emailCheckFail := false
    hashFail := false, addr := noAddrFaults, insertFail := false, commitFail := false }

/-- createUser: validates required fields, email format and password
strength; rejects duplicate usernames and then duplicate emails; hashes the
password; resolves the address inside the transaction; inserts the User row
with the literals Role = Seeker and IsVerified = 0; then commits.  Every
failure resolves to success = false with the source's message, and every
path that failed after a write rolls the transaction back (the committed
state is the original db).  The duplicate and validation exits happen before
any write, so they also leave the committed state unchanged. -/
def createUser (env : Env) (db : DB) (d : UserInput) (now : Nat)
    (f : CreateUserFaults) : CreateUserRes × DB :=
  if f.beginFail then
    ({ success := false, message := "Database transaction error.", data := none }, db)
  else if d.username == "" || d.password == "" || d.email == "" ||
      d.streetName == "" || d.city == "" || d.postalCode == "" then
    ({ success := false, message := "All fields are required.", data := none }, db)
  else if !env.isEmail d.email then
    ({ success := false, message := "Invalid email format.", data := none }, db)
  else if !validatePassword d.password then
    ({ success := false, message := "Password format is invalid.", data := none }, db)
  else
    match getUserByUsername db d.username f.usernameCheckFail with
    | .error _ =>
      ({ success := false, message := "Internal error during user creation.", data := none }, db)
    | .ok byName =>
      if 0 < byName.length then
        ({ success := false, message := "Username already exists.", data := none }, db)
      else
        match getUserByEmail db d.email f.emailCheckFail with
        | .error _ =>
          ({ success := false, message := "Internal error during user creation.", data := none }, db)
        | .ok byMail =>
          if 0 < byMail.length then
            ({ success := false, message := "Email already registered.", data := none }, db)
          else if f.hashFail then
            ({ success := false, message := "Internal error during user creation.", data := none }, db)
          else
            match getOrCreateAddress db
                { streetName := d.streetName, city := d.city
                  postalCode := d.postalCode, number := d.number } f.addr with
            | .error _ =>
              ({ success := false, message := "Internal error during user creation.", data := none }, db)
            | .ok (addressId, db1) =>
              if f.insertFail then
                ({ success := false, message := "Database error during user creation.", data := none }, db)
              else
                let newU : User :=
                  { userID := db1.nextUserID, username := d.username
                    passwordHash := env.hashOf d.password, email := d.email
                    role := "Seeker", isVerified := 0, addressID := addressId
                    lastLoginDate := none, profilePictureURL := ""
                    registrationDate := now }
                let db2 := { db1 with users := db1.users ++ [newU]
                                      nextUserID := db1.nextUserID + 1 }
                if f.commitFail then
                  ({ success := false, message := "Database commit error.", data := none }, db)
                else
                  ({ success := true, message := "User created successfully!"
                     data := some { userId := db1.nextUserID, username := d.username
                                    email := d.email, role := "Seeker" } }, db2)

-- =============================================================
-- createBooking
-- =============================================================

/-- formatMySqlDateTime: null maps to null, any other value goes through the
JS Date / toISOString conversion, abstracted as the environment's toMySql. -/
def formatMySqlDateTime (env : Env) (date : Option String) : Option String :=
  date.map env.toMySql

/-- One element of the items list handed to an ItemSlot booking. -/
structure BookingItemInput where
  categoryId : Nat
  quantity : Nat
  deriving DecidableEq, Repr

/-- The request payload handed to createBooking. -/
structure BookingInput where
  listingId : Nat
  seekerId : Nat
  startDate : Option String
  endDate : Option String
  totalCost : Nat
  storageType : String
  items : List BookingItemInput
  requestedSqm : Nat
  deriving DecidableEq, Repr

/-- The resolution value of createBooking and createListing: success,
message and the new row's ID on success. -/
structure IdRes where
  success : Bool
  message : String
  data : Option Nat
  deriving DecidableEq, Repr

/-- Fault flags for the query sites of createBooking, in source order:
beginTransaction, the Booking INSERT, the BookingItem bulk INSERT, the
RequestedCapacity UPDATE and the COMMIT. -/
structure BookingFaults where
  beginFail : Bool
  insertFail : Bool
  itemsFail : Bool
  updateFail : Bool
  commitFail : Bool
  deriving DecidableEq, Repr

/-- Fault-free execution of createBooking. -/
def noBookingFaults : BookingFaults :=
  { beginFail := false, insertFail := false, itemsFail := false
    updateFail := false, commitFail := false }

/-- createBooking: inserts the Booking row with BookingStatus hard-coded to
Pending and RequestedCapacity_SQMeters initially NULL, then branches on the
payload's storageType: for ItemSlot with a non-empty items list it
bulk-inserts one BookingItem row per item keyed to the new BookingID; for
SquareMeter it updates the new row's RequestedCapacity_SQMeters to
requestedSqm; otherwise it commits the bare Booking row.  Any failure rolls
the whole transaction back (committed state = original db) and resolves with
success = false. -/
def createBooking (env : Env) (db : DB) (d : BookingInput) (now : Nat)
    (f : BookingFaults) : IdRes × DB :=
  if f.beginFail then
    ({ success := false, message := "DB transaction error.", data := none }, db)
  else if f.insertFail then
    ({ success := false, message := "DB error on booking creation.", data := none }, db)
  else
    let newId := db.nextBookingID
    let row : Booking :=
      { bookingID := newId, listingID := d.listingId, seekerID := d.seekerId
        startDate := formatMySqlDateTime env d.startDate
        endDate := formatMySqlDateTime env d.endDate
        totalCost := d.totalCost, requestDate := now
        bookingStatus := "Pending", requestedCapacitySQMeters := none }
    let db1 := { db with bookings := db.bookings ++ [row], nextBookingID := newId + 1 }
    if d.storageType == "ItemSlot" && 0 < d.items.length then
      if f.itemsFail then
        ({ success := false, message := "DB error on booking item creation.", data := none }, db)
      else
        let newItems : List BookingItem := d.items.map (fun it =>
          { bookingID := newId, categoryID := it.categoryId, quantity := it.quantity })
        let db2 := { db1 with bookingItems := db1.bookingItems ++ newItems }
        if f.commitFail then
          ({ success := false, message := "DB commit error.", data := none }, db)
        else
          ({ success := true, message := "Booking created successfully!", data := some newId }, db2)
    else if d.storageType == "SquareMeter" then
      if f.updateFail then
        ({ success := false, message := "DB error updating booking capacity.", data := none }, db)
      else
        let db2 := { db1 with bookings := db1.bookings.map (fun b =>
          if b.bookingID == newId then { b with requestedCapacitySQMeters := some d.requestedSqm } else b) }
        if f.commitFail then
          ({ success := false, message := "DB commit error.", data := none }, db)
        else
          ({ success := true, message := "Booking created successfully!", data := some newId }, db2)
    else
      if f.commitFail then
        ({ success := false, message := "DB commit error.", data := none }, db)
      else
        ({ success := true, message := "Booking created successfully!", data := some newId }, db1)

-- =============================================================
-- createListing
-- =============================================================

/-- One uploaded image as handed to createListing. -/
structure ImageInput where
  path : String
  isPrimary : Bool
  deriving DecidableEq, Repr

/-- The request payload handed to createListing.  The price is kept as the
raw string (the parseFloat conversion is a floating-point detail the claims
never touch). -/
structure ListingInput where
  title : String
  description : String
  price : String
  priceUnit : String
  storageType : String
  capacity : Nat
  streetName : String
  city : String
  postalCode : String
  number : String
  providerId : Nat
  images : List ImageInput
  deriving DecidableEq, Repr

/-- Fault flags for the query sites of createListing, in source order:
beginTransaction, the two address queries, the Listing INSERT, the
Attachment bulk INSERT and the COMMIT. -/
structure ListingFaults where
  beginFail : Bool
  addr : AddrFaults
  insertFail : Bool
  attachFail : Bool
  commitFail : Bool
  deriving DecidableEq, Repr

/-- Fault-free execution of createListing. -/
def noListingFaults : ListingFaults :=
  { beginFail := false, addr := noAddrFaults, insertFail := false
    attachFail := false, commitFail := false }

/-- createListing: resolves the address inside the transaction, inserts the
Listing row writing the capacity into the column selected by storageType
(TotalCapacity_Slots for ItemSlot, CapacitySQMeter otherwise) with status
Active, bulk-inserts one Attachment row per image, and commits.  The bulk
insert also fails when the images list is empty, because the driver then
renders an INSERT with an empty VALUES list, which is a SQL syntax error.
Any failure rolls the whole transaction back (committed state = original db)
and resolves with success = false. -/
def createListing (db : DB) (d : ListingInput) (now : Nat)
    (f : ListingFaults) : IdRes × DB :=
  if f.beginFail then
    ({ success := false, message := "DB transaction error.", data := none }, db)
  else
    match getOrCreateAddress db
        { streetName := d.streetName, city := d.city
          postalCode := d.postalCode, number := d.number } f.addr with
    | .error _ =>
      ({ success := false, message := "Internal error during listing creation.", data := none }, db)
    | .ok (addressId, db1) =>
      if f.insertFail then
        ({ success := false, message := "DB error on listing creation.", data := none }, db)
      else
        let newId := db1.nextListingID
        let row : Listing :=
          { listingID := newId, providerID := d.providerId, title := d.title
            description := d.description, storageType := d.storageType
            totalCapacitySlots := if d.storageType == "ItemSlot" then some d.capacity else none
            capacitySQMeter := if d.storageType == "ItemSlot" then none else some d.capacity
            pricePerUnit := d.price, priceUnit := d.priceUnit
            addressID := addressId, creationDate := now, status := "Active" }
        let db2 := { db1 with listings := db1.listings ++ [row], nextListingID := newId + 1 }
        if f.attachFail || d.images.isEmpty then
          ({ success := false, message := "DB error on attachment creation.", data := none }, db)
        else
          let newAtts : List Attachment := d.images.map (fun img =>
            { listingID := newId, fileURL := img.path, fileType := "Image"
              uploadTimestamp := now, isPrimary := img.isPrimary })
          let db3 := { db2 with attachments := db2.attachments ++ newAtts }
          if f.commitFail then
            ({ success := false, message := "DB commit error.", data := none }, db)
          else
            ({ success := true, message := "Listing created successfully!", data := some newId }, db3)

-- =============================================================
-- getListingById
-- =============================================================

/-- One element of the Images array built by getListingById. -/
structure ImageView where
  fileURL : String
  isPrimary : Bool
  deriving DecidableEq, Repr

/-- The row shape resolved by getListingById: the Listing columns, the
joined Address columns and the aggregated, primary-first Images array. -/
structure ListingView where
  listing : Listing
  city : String
  streetName : String
  images : List ImageView
  deriving DecidableEq, Repr

/-- The primary-first ordering of the Images array.  The source sorts the
parsed attachment list with the comparator (b.IsPrimary - a.IsPrimary); a
stable sort descending on a 0/1 key is exactly the primary-flagged entries
in their aggregation order followed by the rest in theirs. -/
def sortPrimaryFirst (l : List ImageView) : List ImageView :=
  l.filter (fun i => i.isPrimary) ++ l.filter (fun i => !i.isPrimary)

/-- getListingById: SELECT with an inner JOIN on Address, a LEFT JOIN on
Attachment and GROUP_CONCAT aggregation of the attachment rows, grouped by
ListingID.  No listing row, or no matching address row for the inner join,
resolve to null; otherwise the attachment rows (empty when the LEFT JOIN
found none) are parsed into the Images array sorted primary-first.  A driver
error rejects the promise. -/
def getListingById (db : DB) (listingId : Nat) (queryFail : Bool) :
    Except String (Option ListingView) :=
  if queryFail then .error "query error"
  else
    match db.listings.find? (fun l => l.listingID == listingId) with
    | none => .ok none
    | some l =>
      match db.addresses.find? (fun a => a.addressID == l.addressID) with
      | none => .ok none
      | some a =>
        let atts := db.attachments.filter (fun t => t.listingID == listingId)
        .ok (some
          { listing := l, city := a.city, streetName := a.streetName
            images := sortPrimaryFirst (atts.map (fun t =>
              { fileURL := t.fileURL, isPrimary := t.isPrimary })) })

-- =============================================================
-- authenticateUser
-- =============================================================

/-- Which User-table column a credential lookup queries, together with the
identifier it was issued with. -/
inductive UserLookup where
  | byEmail (identifier : String)
  | byUsername (identifier : String)
  deriving DecidableEq, Repr

/-- A User row as returned to the caller after destructuring away the
PasswordHash field. -/
structure UserPublic where
  userID : Nat
  username : String
  email : String
  role : String
  isVerified : Nat
  addressID : Nat
  lastLoginDate : Option Nat
  profilePictureURL : String
  registrationDate : Nat
  deriving DecidableEq, Repr

/-- Strip the PasswordHash field before returning the row. -/
def stripHash (u : User) : UserPublic :=
  { userID := u.userID, username := u.username, email := u.email
    role := u.role, isVerified := u.isVerified, addressID := u.addressID
    lastLoginDate := u.lastLoginDate
    profilePictureURL := u.profilePictureURL
    registrationDate := u.registrationDate }

/-- The resolution value of authenticateUser. -/
structure AuthRes where
  success : Bool
  message : String
  data : Option UserPublic
  deriving DecidableEq, Repr

/-- Everything observable about one authenticateUser execution: its
resolution value, the committed store afterwards, and the list of
credential lookups it issued against the User table. -/
structure AuthOutcome where
  res : AuthRes
  db : DB
  lookups : List UserLookup
  deriving Repr

/-- The rows the credential SELECT returns: the identifier is matched
against the Email column when the validator classifies it as an email, and
against the Username column otherwise. -/
def matchedUsers (env : Env) (db : DB) (identifier : String) : List User :=
  if env.isEmail identifier then db.users.filter (fun u => u.email == identifier)
  else db.users.filter (fun u => u.username == identifier)

/-- The single lookup the credential SELECT performs, classified by the
validator's email-format check. -/
def lookupOf (env : Env) (identifier : String) : UserLookup :=
  if env.isEmail identifier then .byEmail identifier else .byUsername identifier

/-- Fault flags for the two query sites of authenticateUser: the credential
SELECT and the last-login UPDATE. -/
structure AuthFaults where
  queryFail : Bool
  loginUpdateFail : Bool
  deriving DecidableEq, Repr

/-- Fault-free execution of authenticateUser. -/
def noAuthFaults : AuthFaults := { queryFail := false, loginUpdateFail := false }

/-- authenticateUser: requires both credentials to be present, classifies
the identifier by format to pick the lookup column, fetches the matching
rows and takes the first, compares the password against the stored hash,
updates the last-login timestamp on success, and strips the hash before
returning the row (with its pre-update LastLoginDate, as fetched).  An empty
row set and a failed comparison both resolve to the same value
success = false / "Invalid credentials.".  Query errors are caught and
resolved as internal errors; the promise never rejects. -/
def authenticateUser (env : Env) (db : DB) (identifier password : String)
    (now : Nat) (f : AuthFaults) : AuthOutcome :=
  if identifier == "" || password == "" then
    { res := { success := false
               message := "Username/Email and password are required"
               data := none }
      db := db, lookups := [] }
  else if f.queryFail then
    { res := { success := false
               message := "Internal error during authentication", data := none }
      db := db, lookups := [lookupOf env identifier] }
  else
    match (matchedUsers env db identifier).head? with
    | none =>
      { res := { success := false, message := "Invalid credentials.", data := none }
        db := db, lookups := [lookupOf env identifier] }
    | some u =>
      if env.hashOf password == u.passwordHash then
        if f.loginUpdateFail then
          { res := { success := false
                     message := "Internal error during authentication", data := none }
            db := db, lookups := [lookupOf env identifier] }
        else
          { res := { success := true, message := "Authentication successful"
                     data := some (stripHash u) }
            db := { db with users := db.users.map (fun x =>
              if x.userID == u.userID then { x with lastLoginDate := some now } else x) }
            lookups := [lookupOf env identifier] }
      else
        { res := { success := false, message := "Invalid credentials.", data := none }
          db := db, lookups := [lookupOf env identifier] }

-- =============================================================
-- Single-query update operations (promise-rejecting)
-- =============================================================

/-- The plain success/message resolution value of the single-row update
operations. -/
structure SimpleRes where
  success : Bool
  message : String
  deriving DecidableEq, Repr

/-- updateVerificationStatus: a single UPDATE; a driver error rejects the
promise rather than resolving a failure value. -/
def updateVerificationStatus (db : DB) (userId isVerified : Nat)
    (queryFail : Bool) : Except String (SimpleRes × DB) :=
  if queryFail then .error "query error"
  else .ok
    ({ success := true, message := "Verification status updated successfully" },
     { db with users := db.users.map (fun u =>
        if u.userID == userId then { u with isVerified := isVerified } else u) })

/-- The resolution value of updateProfilePicture, carrying the stored file
path back to the caller. -/
structure ProfilePicRes where
  success : Bool
  message : String
  data : Option String
  deriving DecidableEq, Repr

/-- updateProfilePicture: a single UPDATE; a driver error rejects the
promise rather than resolving a failure value. -/
def updateProfilePicture (db : DB) (userId : Nat) (filePath : String)
    (queryFail : Bool) : Except String (ProfilePicRes × DB) :=
  if queryFail then .error "query error"
  else .ok
    ({ success := true, message := "Profile picture updated.", data := some filePath },
     { db with users := db.users.map (fun u =>
        if u.userID == userId then { u with profilePictureURL := filePath } else u) })

-- =============================================================
-- Concrete fixtures used by witnesses and counterexamples
-- =============================================================

/-- A concrete instantiation of the external dependencies: a simple
at-sign-based email sniffing, a deterministic injective-on-inputs hash and an
identity date conversion. -/
def envEx : Env :=
  { isEmail := fun s => s.toList.contains '@'
    hashOf := fun s => "hash:" ++ s
    toMySql := fun s => s }

/-- An existing registered user named alice. -/
def aliceUser : User :=
  { userID := 1, username := "alice", passwordHash := "hash:Alice123"
    email := "alice@x.com", role := "Seeker", isVerified := 0
    addressID := 1, lastLoginDate := none, profilePictureURL := ""
    registrationDate := 0 }

/-- A store holding only alice. -/
def dbAlice : DB := { emptyDB with users := [aliceUser], nextUserID := 2 }

/-- A registration payload that reuses alice's username but carries a
password failing the strength check. -/
def dupBadPwInput : UserInput :=
  { username := "alice", password := "short", email := "new@x.com"
    streetName := "Main", city := "Koper", postalCode := "6000"
    number := "", role := "" }

/-- A well-formed registration payload that reuses alice's username. -/
def dupOkInput : UserInput :=
  { username := "alice", password := "Passw0rd", email := "new@x.com"
    streetName := "Main", city := "Koper", postalCode := "6000"
    number := "", role := "" }

/-- A well-formed registration payload for a fresh user, carrying a role
field that createUser never reads. -/
def goodInput : UserInput :=
  { username := "bob", password := "Passw0rd", email := "bob@x.com"
    streetName := "Main", city := "Koper", postalCode := "6000"
    number := "1", role := "Provider" }

/-- A stored listing row used by the getListingById fixtures. -/
def listingEx : Listing :=
  { listingID := 7, providerID := 1, title := "Garage"
    description := "Dry garage", storageType := "ItemSlot"
    totalCapacitySlots := some 10, capacitySQMeter := none
    pricePerUnit := "5", priceUnit := "day", addressID := 3
    creationDate := 0, status := "Active" }

/-- The address row joined to the fixture listing. -/
def addressEx : Address :=
  { addressID := 3, streetName := "1 Main", city := "Koper", postalCode := "6000" }

/-- A non-primary attachment of the fixture listing, stored first. -/
def attNonPrimaryEx : Attachment :=
  { listingID := 7, fileURL := "a.jpg", fileType := "Image"
    uploadTimestamp := 0, isPrimary := false }

/-- The primary attachment of the fixture listing, stored second. -/
def attPrimaryEx : Attachment :=
  { listingID := 7, fileURL := "b.jpg", fileType := "Image"
    uploadTimestamp := 0, isPrimary := true }

/-- A store holding the fixture listing, its address and its two
attachments, the primary one stored last. -/
def dbListingEx : DB :=
  { emptyDB with
      listings := [listingEx], addresses := [addressEx]
      attachments := [attNonPrimaryEx, attPrimaryEx]
      nextListingID := 8, nextAddressID := 4 }

/-- A listing payload with storage type ItemSlot, capacity 10 and one
primary image. -/
def listingInputEx : ListingInput :=
  { title := "Garage", description := "Dry garage", price := "5"
    priceUnit := "day", storageType := "ItemSlot", capacity := 10
    streetName := "Main", city := "Koper", postalCode := "6000"
    number := "1", providerId := 1
    images := [{ path := "img1.jpg", isPrimary := true }] }

/-- A booking payload for a SquareMeter listing requesting 25 square
meters. -/
def sqmBookingEx : BookingInput :=
  { listingId := 1, seekerId := 2, startDate := some "2025-01-01"
    endDate := some "2025-02-01", totalCost := 100
    storageType := "SquareMeter", items := [], requestedSqm := 25 }

/-- A booking payload for an ItemSlot listing with a two-element items
list. -/
def slotBookingEx : BookingInput :=
  { listingId := 1, seekerId := 2, startDate := some "2025-01-01"
    endDate := some "2025-02-01", totalCost := 100
    storageType := "ItemSlot"
    items := [{ categoryId := 3, quantity := 2 }, { categoryId := 4, quantity := 1 }]
    requestedSqm := 0 }

end CasaBox

namespace CasaBox

-- =============================================================
-- Theorems
-- =============================================================

/-- Helper: the address resolver only touches the Address table and its
counter; every other component of the store is preserved. -/
theorem getOrCreateAddress_preserves (db : DB) (ad : AddressInput)
    (f : AddrFaults) (id : Nat) (db1 : DB)
    (h : getOrCreateAddress db ad f = .ok (id, db1)) :
    db1.users = db.users ∧ db1.nextUserID = db.nextUserID ∧
    db1.listings = db.listings ∧ db1.nextListingID = db.nextListingID ∧
    db1.attachments = db.attachments ∧ db1.bookings = db.bookings ∧
    db1.bookingItems = db.bookingItems ∧ db1.nextBookingID = db.nextBookingID := by
  unfold getOrCreateAddress at h
  dsimp only at h
  split at h
  · exact absurd h (by simp)
  · split at h
    · simp only [Except.ok.injEq, Prod.mk.injEq] at h
      rcases h with ⟨-, h2⟩
      subst h2
      exact ⟨rfl, rfl, rfl, rfl, rfl, rfl, rfl, rfl⟩
    · split at h
      · exact absurd h (by simp)
      · simp only [Except.ok.injEq, Prod.mk.injEq] at h
        rcases h with ⟨-, h2⟩
        subst h2
        exact ⟨rfl, rfl, rfl, rfl, rfl, rfl, rfl, rfl⟩

/-- Claim C3: address resolution is idempotent.  Starting from a store with
no row matching the (normalised street, city, postal code) key, a first
fault-free getOrCreateAddress call inserts exactly one Address row and
returns its ID, and a second call with identical arguments finds that row,
returns the same AddressID, and leaves the store unchanged (no insert). -/
theorem getOrCreateAddress_idempotent (db : DB) (ad : AddressInput)
    (hnone : db.addresses.find?
      (addrMatches (fullStreetName ad.number ad.streetName) ad.city ad.postalCode) = none) :
    ∃ id db1,
      getOrCreateAddress db ad noAddrFaults = .ok (id, db1) ∧
      getOrCreateAddress db1 ad noAddrFaults = .ok (id, db1) ∧
      db1.addresses.length = db.addresses.length + 1 := by
  refine ⟨db.nextAddressID,
    { db with
        addresses := db.addresses ++
          [{ addressID := db.nextAddressID
             streetName := fullStreetName ad.number ad.streetName
             city := ad.city, postalCode := ad.postalCode }]
        nextAddressID := db.nextAddressID + 1 }, ?_, ?_, ?_⟩
  · simp [getOrCreateAddress, noAddrFaults, hnone]
  · simp [getOrCreateAddress, noAddrFaults, hnone, List.find?_append, addrMatches]
  · simp

/-- Helper: the fault-free address resolver always resolves. -/
theorem getOrCreateAddress_ok (db : DB) (ad : AddressInput) :
    ∃ p, getOrCreateAddress db ad noAddrFaults = .ok p := by
  simp only [getOrCreateAddress, noAddrFaults]
  simp only [Bool.false_eq_true, if_false]
  split
  · exact ⟨_, rfl⟩
  · exact ⟨_, rfl⟩

/-- Helper: a successful address resolution returns the ID of some row
present in the resulting Address table. -/
theorem getOrCreateAddress_mem (db : DB) (ad : AddressInput) (f : AddrFaults)
    (id : Nat) (db1 : DB) (h : getOrCreateAddress db ad f = .ok (id, db1)) :
    ∃ a ∈ db1.addresses, a.addressID = id := by
  unfold getOrCreateAddress at h
  dsimp only at h
  split at h
  · exact absurd h (by simp)
  · split at h
    · rename_i a ha
      simp only [Except.ok.injEq, Prod.mk.injEq] at h
      rcases h with ⟨h1, h2⟩
      subst h1
      subst h2
      exact ⟨a, List.mem_of_find?_eq_some ha, rfl⟩
    · split at h
      · exact absurd h (by simp)
      · simp only [Except.ok.injEq, Prod.mk.injEq] at h
        rcases h with ⟨h1, h2⟩
        subst h1
        subst h2
        exact ⟨_, List.mem_append_right _ (List.mem_singleton.mpr rfl), rfl⟩

/-- Helper: the RequestedCapacity UPDATE leaves every Booking row whose
BookingID differs from the targeted one unchanged. -/
theorem map_update_fresh (bs : List Booking) (newId sqm : Nat)
    (h : ∀ b ∈ bs, b.bookingID ≠ newId) :
    bs.map (fun b => if b.bookingID == newId
      then { b with requestedCapacitySQMeters := some sqm } else b) = bs := by
  induction bs with
  | nil => rfl
  | cons b rest ih =>
    have hb : (b.bookingID == newId) = false := by
      simp [h b (List.mem_cons_self b rest)]
    simp only [List.map_cons, hb, Bool.false_eq_true, if_false]
    rw [ih (fun x hx => h x (List.mem_cons_of_mem b hx))]

/-- Claim C1: createBooking branch correctness.  A fault-free call with
storageType SquareMeter and requestedSqm 25 commits exactly one new Booking
row with status Pending storing 25 in the requested-capacity column, and
creates no BookingItem rows; a fault-free call with storageType ItemSlot and
a two-element items list commits the Pending Booking row plus exactly two
BookingItem rows, each keyed to the new BookingID. -/
theorem createBooking_branches (env : Env) (db : DB) (d : BookingInput) (now : Nat)
    (hfresh : ∀ b ∈ db.bookings, b.bookingID ≠ db.nextBookingID) :
    (d.storageType = "SquareMeter" → d.requestedSqm = 25 →
      createBooking env db d now noBookingFaults =
        ({ success := true, message := "Booking created successfully!"
           data := some db.nextBookingID },
         { db with
             bookings := db.bookings ++
               [{ bookingID := db.nextBookingID, listingID := d.listingId
                  seekerID := d.seekerId
                  startDate := formatMySqlDateTime env d.startDate
                  endDate := formatMySqlDateTime env d.endDate
                  totalCost := d.totalCost, requestDate := now
                  bookingStatus := "Pending"
                  requestedCapacitySQMeters := some 25 }]
             nextBookingID := db.nextBookingID + 1 })) ∧
    (∀ i1 i2, d.storageType = "ItemSlot" → d.items = [i1, i2] →
      createBooking env db d now noBookingFaults =
        ({ success := true, message := "Booking created successfully!"
           data := some db.nextBookingID },
         { db with
             bookings := db.bookings ++
               [{ bookingID := db.nextBookingID, listingID := d.listingId
                  seekerID := d.seekerId
                  startDate := formatMySqlDateTime env d.startDate
                  endDate := formatMySqlDateTime env d.endDate
                  totalCost := d.totalCost, requestDate := now
                  bookingStatus := "Pending"
                  requestedCapacitySQMeters := none }]
             bookingItems := db.bookingItems ++
               [{ bookingID := db.nextBookingID, categoryID := i1.categoryId
                  quantity := i1.quantity },
                { bookingID := db.nextBookingID, categoryID := i2.categoryId
                  quantity := i2.quantity }]
             nextBookingID := db.nextBookingID + 1 })) := by
  constructor
  · intro hst hsqm
    have hmap := map_update_fresh db.bookings db.nextBookingID 25 hfresh
    simp only [beq_iff_eq] at hmap
    simp [createBooking, noBookingFaults, hst, hsqm, hmap]
  · intro i1 i2 hst hitems
    simp [createBooking, noBookingFaults, hst, hitems]

/-- Witness for claim C1: the two branch results of the booking theorem on
the empty store, one SquareMeter booking requesting 25 square meters and one
ItemSlot booking with two items. -/
theorem createBooking_branches_witness :
    (createBooking envEx emptyDB sqmBookingEx 5 noBookingFaults =
      ({ success := true, message := "Booking created successfully!"
         data := some emptyDB.nextBookingID },
       { emptyDB with
           bookings := emptyDB.bookings ++
             [{ bookingID := emptyDB.nextBookingID
                listingID := sqmBookingEx.listingId
                seekerID := sqmBookingEx.seekerId
                startDate := formatMySqlDateTime envEx sqmBookingEx.startDate
                endDate := formatMySqlDateTime envEx sqmBookingEx.endDate
                totalCost := sqmBookingEx.totalCost, requestDate := 5
                bookingStatus := "Pending"
                requestedCapacitySQMeters := some 25 }]
           nextBookingID := emptyDB.nextBookingID + 1 })) ∧
    (createBooking envEx emptyDB slotBookingEx 5 noBookingFaults =
      ({ success := true, message := "Booking created successfully!"
         data := some emptyDB.nextBookingID },
       { emptyDB with
           bookings := emptyDB.bookings ++
             [{ bookingID := emptyDB.nextBookingID
                listingID := slotBookingEx.listingId
                seekerID := slotBookingEx.seekerId
                startDate := formatMySqlDateTime envEx slotBookingEx.startDate
                endDate := formatMySqlDateTime envEx slotBookingEx.endDate
                totalCost := slotBookingEx.totalCost, requestDate := 5
                bookingStatus := "Pending"
                requestedCapacitySQMeters := none }]
           bookingItems := emptyDB.bookingItems ++
             [{ bookingID := emptyDB.nextBookingID, categoryID := 3, quantity := 2 },
              { bookingID := emptyDB.nextBookingID, categoryID := 4, quantity := 1 }]
           nextBookingID := emptyDB.nextBookingID + 1 })) :=
  ⟨(createBooking_branches envEx emptyDB sqmBookingEx 5 (by decide)).1 rfl rfl,
   (createBooking_branches envEx emptyDB slotBookingEx 5 (by decide)).2
     { categoryId := 3, quantity := 2 } { categoryId := 4, quantity := 1 } rfl rfl⟩

/-- Claim C2: createListing atomicity under attachment failure.  Whenever
the attachment bulk insert fails after the Listing insert succeeded (the
earlier steps are fault-free, the commit flag is irrelevant because commit
is never reached), the transaction is rolled back: the call resolves with
success = false and the committed store is exactly the original one, so no
Listing row and no Attachment row from the call remains. -/
theorem createListing_attach_rollback (db : DB) (d : ListingInput) (now : Nat)
    (c : Bool) :
    createListing db d now
        { beginFail := false, addr := noAddrFaults, insertFail := false
          attachFail := true, commitFail := c } =
      ({ success := false, message := "DB error on attachment creation."
         data := none }, db) := by
  obtain ⟨⟨addressId, db1⟩, haddr⟩ := getOrCreateAddress_ok db
    { streetName := d.streetName, city := d.city
      postalCode := d.postalCode, number := d.number }
  simp [createListing, haddr]

/-- Claim C7: round-trip through the listing store.  A fault-free
createListing call with storageType ItemSlot and capacity 10 (and a
non-empty image batch, which the attachment bulk insert requires) succeeds
returning the fresh ListingID, and getListingById on that ID then yields a
listing whose StorageType is ItemSlot and whose TotalCapacity_Slots column
holds 10: the capacity was written to the slot column selected by the
storage type. -/
theorem createListing_roundtrip (db : DB) (d : ListingInput) (now : Nat)
    (hst : d.storageType = "ItemSlot") (hcap : d.capacity = 10)
    (himg : d.images ≠ [])
    (hfresh : ∀ l ∈ db.listings, l.listingID ≠ db.nextListingID) :
    (createListing db d now noListingFaults).1 =
      { success := true, message := "Listing created successfully!"
        data := some db.nextListingID } ∧
    ∃ v, getListingById (createListing db d now noListingFaults).2
        db.nextListingID false = .ok (some v) ∧
      v.listing.storageType = "ItemSlot" ∧
      v.listing.totalCapacitySlots = some 10 := by
  obtain ⟨⟨addressId, db1⟩, haddr⟩ := getOrCreateAddress_ok db
    { streetName := d.streetName, city := d.city
      postalCode := d.postalCode, number := d.number }
  obtain ⟨-, -, hl, hn, -, -, -, -⟩ := getOrCreateAddress_preserves _ _ _ _ _ haddr
  obtain ⟨a0, ha0mem, ha0id⟩ := getOrCreateAddress_mem _ _ _ _ _ haddr
  have himg2 : d.images.isEmpty = false := by
    cases h : d.images with
    | nil => exact absurd h himg
    | cons x xs => rfl
  constructor
  · simp [createListing, noListingFaults, haddr, himg2, hn]
  · have h2 : (createListing db d now noListingFaults).2 =
        { db1 with
            listings := db1.listings ++
              [{ listingID := db1.nextListingID, providerID := d.providerId
                 title := d.title, description := d.description
                 storageType := "ItemSlot"
                 totalCapacitySlots := some 10, capacitySQMeter := none
                 pricePerUnit := d.price, priceUnit := d.priceUnit
                 addressID := addressId, creationDate := now, status := "Active" }]
            attachments := db1.attachments ++
              d.images.map (fun img =>
                { listingID := db1.nextListingID, fileURL := img.path
                  fileType := "Image", uploadTimestamp := now
                  isPrimary := img.isPrimary })
            nextListingID := db1.nextListingID + 1 } := by
      simp [createListing, noListingFaults, haddr, himg2, hst, hcap]
    have hnone : db1.listings.find?
        (fun l => l.listingID == db.nextListingID) = none := by
      rw [hl, List.find?_eq_none]
      intro x hx
      simpa using hfresh x hx
    obtain ⟨a2, ha2⟩ : ∃ a2, db1.addresses.find?
        (fun a => a.addressID == addressId) = some a2 := by
      refine Option.isSome_iff_exists.mp ?_
      rw [List.find?_isSome]
      exact ⟨a0, ha0mem, by simp [ha0id]⟩
    have h3 : getListingById (createListing db d now noListingFaults).2
        db.nextListingID false =
        .ok (some
          { listing :=
              { listingID := db1.nextListingID, providerID := d.providerId
                title := d.title, description := d.description
                storageType := "ItemSlot"
                totalCapacitySlots := some 10, capacitySQMeter := none
                pricePerUnit := d.price, priceUnit := d.priceUnit
                addressID := addressId, creationDate := now, status := "Active" }
            city := a2.city, streetName := a2.streetName
            images := sortPrimaryFirst
              (((db1.attachments ++
                  d.images.map (fun img =>
                    ({ listingID := db1.nextListingID, fileURL := img.path
                       fileType := "Image", uploadTimestamp := now
                       isPrimary := img.isPrimary } : Attachment))).filter
                  (fun (t : Attachment) => t.listingID == db.nextListingID)).map
                (fun (t : Attachment) =>
                  ({ fileURL := t.fileURL, isPrimary := t.isPrimary } : ImageView))) }) := by
      rw [h2]
      simp [getListingById, List.find?_append, hnone, hn, ha2]
    exact ⟨_, h3, rfl, rfl⟩

/-- Witness for claim C7: the round-trip theorem run on the empty store with
a concrete ItemSlot listing of capacity 10 and one image. -/
theorem createListing_roundtrip_witness :
    (createListing emptyDB listingInputEx 0 noListingFaults).1 =
      { success := true, message := "Listing created successfully!"
        data := some emptyDB.nextListingID } ∧
    ∃ v, getListingById (createListing emptyDB listingInputEx 0 noListingFaults).2
        emptyDB.nextListingID false = .ok (some v) ∧
      v.listing.storageType = "ItemSlot" ∧
      v.listing.totalCapacitySlots = some 10 :=
  createListing_roundtrip emptyDB listingInputEx 0 rfl rfl (by decide) (by decide)

/-- Claim C9: getListingById aggregates the listing's attachment rows into
the Images list: the list is a permutation of the attachment rows of that
listing (so a listing with no attachments gets an empty image list), and
whenever some attachment of the listing is flagged primary, the head of the
Images list is a primary-flagged image. -/
theorem getListingById_images (db : DB) (id : Nat) (l : Listing) (a : Address)
    (hl : db.listings.find? (fun x => x.listingID == id) = some l)
    (ha : db.addresses.find? (fun x => x.addressID == l.addressID) = some a) :
    ∃ v, getListingById db id false = .ok (some v) ∧
      v.images.Perm ((db.attachments.filter (fun t => t.listingID == id)).map
        (fun t => ({ fileURL := t.fileURL, isPrimary := t.isPrimary } : ImageView))) ∧
      (db.attachments.filter (fun t => t.listingID == id) = [] → v.images = []) ∧
      ((∃ t ∈ db.attachments, t.listingID = id ∧ t.isPrimary = true) →
        ∃ i0, v.images.head? = some i0 ∧ i0.isPrimary = true) := by
  refine ⟨{ listing := l, city := a.city, streetName := a.streetName
            images := sortPrimaryFirst ((db.attachments.filter
              (fun t => t.listingID == id)).map
              (fun t => ({ fileURL := t.fileURL, isPrimary := t.isPrimary } : ImageView))) },
    ?_, ?_, ?_, ?_⟩
  · simp [getListingById, hl, ha]
  · exact List.filter_append_perm _ _
  · intro h
    simp [h, sortPrimaryFirst]
  · rintro ⟨t, htm, htl, htp⟩
    have hmem : ({ fileURL := t.fileURL, isPrimary := t.isPrimary } : ImageView) ∈
        ((db.attachments.filter (fun t => t.listingID == id)).map
          (fun t => ({ fileURL := t.fileURL, isPrimary := t.isPrimary } : ImageView))).filter
          (fun i => i.isPrimary) := by
      refine List.mem_filter.mpr ⟨?_, by simp [htp]⟩
      exact List.mem_map.mpr ⟨t, List.mem_filter.mpr ⟨htm, by simp [htl]⟩, rfl⟩
    cases hfp : ((db.attachments.filter (fun t => t.listingID == id)).map
        (fun t => ({ fileURL := t.fileURL, isPrimary := t.isPrimary } : ImageView))).filter
        (fun i => i.isPrimary) with
    | nil =>
      rw [hfp] at hmem
      exact absurd hmem (List.not_mem_nil _)
    | cons i0 rest =>
      refine ⟨i0, ?_, ?_⟩
      · simp [sortPrimaryFirst, hfp]
      · have hin : i0 ∈ ((db.attachments.filter (fun t => t.listingID == id)).map
            (fun t => ({ fileURL := t.fileURL, isPrimary := t.isPrimary } : ImageView))).filter
            (fun i => i.isPrimary) := by
          rw [hfp]
          exact List.mem_cons_self _ _
        exact (List.mem_filter.mp hin).2

/-- Witness for claim C9: the aggregation theorem run on the concrete store
whose listing has two attachments with the primary one stored second. -/
theorem getListingById_images_witness :
    ∃ v, getListingById dbListingEx 7 false = .ok (some v) ∧
      v.images.Perm ((dbListingEx.attachments.filter (fun t => t.listingID == 7)).map
        (fun t => ({ fileURL := t.fileURL, isPrimary := t.isPrimary } : ImageView))) ∧
      (dbListingEx.attachments.filter (fun t => t.listingID == 7) = [] → v.images = []) ∧
      ((∃ t ∈ dbListingEx.attachments, t.listingID = 7 ∧ t.isPrimary = true) →
        ∃ i0, v.images.head? = some i0 ∧ i0.isPrimary = true) :=
  getListingById_images dbListingEx 7 listingEx addressEx rfl rfl

/-- Claim C4 (amended): a createUser call that passes input validation and
whose username or email already belongs to an existing User row (with the
duplicate-check queries themselves succeeding) resolves with success = false
carrying the duplicate-specific message, distinguishing a username clash
from an email clash, and leaves the committed store unchanged: no User row
and no Address row is inserted. -/
theorem createUser_duplicate_rejected (env : Env) (db : DB) (d : UserInput)
    (now : Nat) (f : CreateUserFaults)
    (hb : f.beginFail = false) (hq : f.usernameCheckFail = false)
    (he : f.emailCheckFail = false)
    (hfields : d.username ≠ "" ∧ d.password ≠ "" ∧ d.email ≠ "" ∧
      d.streetName ≠ "" ∧ d.city ≠ "" ∧ d.postalCode ≠ "")
    (hemail : env.isEmail d.email = true) (hpw : validatePassword d.password = true) :
    ((∃ u ∈ db.users, u.username = d.username) →
      createUser env db d now f =
        ({ success := false, message := "Username already exists.", data := none }, db)) ∧
    ((∀ u ∈ db.users, u.username ≠ d.username) → (∃ u ∈ db.users, u.email = d.email) →
      createUser env db d now f =
        ({ success := false, message := "Email already registered.", data := none }, db)) := by
  obtain ⟨h1, h2, h3, h4, h5, h6⟩ := hfields
  constructor
  · rintro ⟨u, hu, huname⟩
    have hmem : u ∈ db.users.filter (fun x => x.username == d.username) := by
      simp [List.mem_filter, hu, huname]
    have hlen : 0 < (db.users.filter (fun x => x.username == d.username)).length :=
      List.length_pos_of_mem hmem
    simp [createUser, getUserByUsername, hb, hq, h1, h2, h3, h4, h5, h6,
      hemail, hpw, hlen]
  · rintro hnou ⟨u, hu, humail⟩
    have hempty : db.users.filter (fun x => x.username == d.username) = [] := by
      simp only [List.filter_eq_nil_iff, beq_iff_eq]
      exact fun a ha => hnou a ha
    have hmem : u ∈ db.users.filter (fun x => x.email == d.email) := by
      simp [List.mem_filter, hu, humail]
    have hlen : 0 < (db.users.filter (fun x => x.email == d.email)).length :=
      List.length_pos_of_mem hmem
    simp [createUser, getUserByUsername, getUserByEmail, hb, hq, he,
      h1, h2, h3, h4, h5, h6, hemail, hpw, hempty, hlen]

/-- Witness for claim C4: the amended duplicate theorem run on the concrete
store holding alice and a well-formed payload reusing her username. -/
theorem createUser_duplicate_rejected_witness :
    createUser envEx dbAlice dupOkInput 0 noCreateUserFaults =
      ({ success := false, message := "Username already exists.", data := none }, dbAlice) :=
  (createUser_duplicate_rejected envEx dbAlice dupOkInput 0 noCreateUserFaults
      rfl rfl rfl (by decide) (by decide) (by decide)).1
    ⟨aliceUser, by decide, rfl⟩

/-- Counterexample for claim C4 as frozen: a createUser call whose username
already belongs to alice but whose password fails the strength check
resolves with the validation message, not a duplicate-specific one, because
validation runs before the duplicate checks.  The claim's universal
quantification over all createUser calls with a clashing username therefore
fails. -/
theorem createUser_duplicate_message_cex :
    (∃ u ∈ dbAlice.users, u.username = dupBadPwInput.username) ∧
    (createUser envEx dbAlice dupBadPwInput 0 noCreateUserFaults).1.success = false ∧
    (createUser envEx dbAlice dupBadPwInput 0 noCreateUserFaults).1.message
      = "Password format is invalid." ∧
    (createUser envEx dbAlice dupBadPwInput 0 noCreateUserFaults).1.message
      ≠ "Username already exists." ∧
    (createUser envEx dbAlice dupBadPwInput 0 noCreateUserFaults).1.message
      ≠ "Email already registered." := by
  refine ⟨⟨aliceUser, by decide, rfl⟩, ?_, ?_, ?_, ?_⟩ <;> decide

/-- Helper: on any successful createUser execution the committed store
extends the User table by exactly one row, and that row carries the
hard-coded Role = Seeker and IsVerified = 0 literals of the INSERT. -/
theorem createUser_success_shape (env : Env) (db : DB) (d : UserInput)
    (now : Nat) (f : CreateUserFaults) (r : CreateUserRes) (db2 : DB)
    (h : createUser env db d now f = (r, db2)) (hs : r.success = true) :
    ∃ u, db2.users = db.users ++ [u] ∧ u.role = "Seeker" ∧ u.isVerified = 0 := by
  unfold createUser at h
  dsimp only at h
  repeat' split at h
  all_goals injection h with h1 h2
  all_goals subst h1
  all_goals simp only [CreateUserRes.mk.injEq] at hs ⊢
  all_goals try exact absurd hs (by decide)
  subst h2
  rename_i addressId db1 heq _ _
  obtain ⟨hu, -⟩ := getOrCreateAddress_preserves _ _ _ _ _ heq
  refine ⟨{ userID := db1.nextUserID, username := d.username
            passwordHash := env.hashOf d.password, email := d.email
            role := "Seeker", isVerified := 0, addressID := addressId
            lastLoginDate := none, profilePictureURL := ""
            registrationDate := now }, ?_, rfl, rfl⟩
  simp [hu]

/-- Claim C10: every User row created by a successful createUser call has
Role = Seeker and IsVerified = 0, and the outcome is entirely independent of
any role field supplied in the payload, so registration can never directly
produce an Admin or Provider account. -/
theorem createUser_role_fixed (env : Env) (db : DB) (d : UserInput)
    (now : Nat) (f : CreateUserFaults) :
    ((createUser env db d now f).1.success = true →
      ∃ u, (createUser env db d now f).2.users = db.users ++ [u] ∧
        u.role = "Seeker" ∧ u.isVerified = 0) ∧
    (∀ r, createUser env db { d with role := r } now f = createUser env db d now f) := by
  constructor
  · intro hs
    exact createUser_success_shape env db d now f _ _ rfl hs
  · intro r
    rfl

/-- Witness for claim C10: a concrete successful registration carrying the
role Provider in the payload still stores a Seeker row, and replacing the
payload role by Admin changes nothing about the outcome. -/
theorem createUser_role_fixed_witness :
    (∃ u, (createUser envEx emptyDB goodInput 0 noCreateUserFaults).2.users
        = emptyDB.users ++ [u] ∧ u.role = "Seeker" ∧ u.isVerified = 0) ∧
    createUser envEx emptyDB { goodInput with role := "Admin" } 0 noCreateUserFaults
      = createUser envEx emptyDB goodInput 0 noCreateUserFaults :=
  ⟨(createUser_role_fixed envEx emptyDB goodInput 0 noCreateUserFaults).1 (by decide),
   (createUser_role_fixed envEx emptyDB goodInput 0 noCreateUserFaults).2 "Admin"⟩

/-- Claim C5: authenticateUser does not reveal account existence.  A call
whose identifier matches no user and a call whose identifier matches an
existing user but whose password fails the hash comparison both resolve to
the identical value success = false / "Invalid credentials." with no data,
and neither modifies the store. -/
theorem authenticateUser_uniform (env : Env) (db : DB)
    (id1 pw1 id2 pw2 : String) (now1 now2 : Nat) (u : User)
    (h1a : id1 ≠ "") (h1b : pw1 ≠ "") (h2a : id2 ≠ "") (h2b : pw2 ≠ "")
    (hnone : matchedUsers env db id1 = [])
    (hsome : (matchedUsers env db id2).head? = some u)
    (hwrong : env.hashOf pw2 ≠ u.passwordHash) :
    (authenticateUser env db id1 pw1 now1 noAuthFaults).res =
      { success := false, message := "Invalid credentials.", data := none } ∧
    (authenticateUser env db id2 pw2 now2 noAuthFaults).res =
      { success := false, message := "Invalid credentials.", data := none } ∧
    (authenticateUser env db id1 pw1 now1 noAuthFaults).res =
      (authenticateUser env db id2 pw2 now2 noAuthFaults).res ∧
    (authenticateUser env db id1 pw1 now1 noAuthFaults).db = db ∧
    (authenticateUser env db id2 pw2 now2 noAuthFaults).db = db := by
  have e1 : (authenticateUser env db id1 pw1 now1 noAuthFaults).res =
      { success := false, message := "Invalid credentials.", data := none } := by
    simp [authenticateUser, noAuthFaults, h1a, h1b, hnone]
  have e2 : (authenticateUser env db id2 pw2 now2 noAuthFaults).res =
      { success := false, message := "Invalid credentials.", data := none } := by
    simp [authenticateUser, noAuthFaults, h2a, h2b, hsome, hwrong]
  have d1 : (authenticateUser env db id1 pw1 now1 noAuthFaults).db = db := by
    simp [authenticateUser, noAuthFaults, h1a, h1b, hnone]
  have d2 : (authenticateUser env db id2 pw2 now2 noAuthFaults).db = db := by
    simp [authenticateUser, noAuthFaults, h2a, h2b, hsome, hwrong]
  exact ⟨e1, e2, e1.trans e2.symm, d1, d2⟩

/-- Witness for claim C5: on the concrete store holding alice, the
unknown-identifier call and the wrong-password call against alice resolve
to the same generic value. -/
theorem authenticateUser_uniform_witness :
    (authenticateUser envEx dbAlice "nouser" "Whatever1" 3 noAuthFaults).res =
      { success := false, message := "Invalid credentials.", data := none } ∧
    (authenticateUser envEx dbAlice "alice" "Wrong1" 4 noAuthFaults).res =
      { success := false, message := "Invalid credentials.", data := none } ∧
    (authenticateUser envEx dbAlice "nouser" "Whatever1" 3 noAuthFaults).res =
      (authenticateUser envEx dbAlice "alice" "Wrong1" 4 noAuthFaults).res ∧
    (authenticateUser envEx dbAlice "nouser" "Whatever1" 3 noAuthFaults).db = dbAlice ∧
    (authenticateUser envEx dbAlice "alice" "Wrong1" 4 noAuthFaults).db = dbAlice :=
  authenticateUser_uniform envEx dbAlice "nouser" "Whatever1" "alice" "Wrong1" 3 4
    aliceUser (by decide) (by decide) (by decide) (by decide) rfl rfl (by decide)

/-- Claim C8 (amended): for every authenticateUser call with a non-empty
identifier and password, the identifier is classified by the validator's
format check: a well-formed email is looked up against the Email column and
anything else against the Username column, and exactly one lookup is
issued.  Calls with an empty identifier or password are stopped by the
required-fields guard before any lookup. -/
theorem authenticateUser_lookup_classified (env : Env) (db : DB)
    (identifier password : String) (now : Nat) (f : AuthFaults)
    (hid : identifier ≠ "") (hpw : password ≠ "") :
    (authenticateUser env db identifier password now f).lookups =
      [if env.isEmail identifier then UserLookup.byEmail identifier
       else UserLookup.byUsername identifier] := by
  have hg : (identifier == "" || password == "") = false := by
    simp [hid, hpw]
  unfold authenticateUser
  simp only [hg, Bool.false_eq_true, if_false]
  split
  · rfl
  · split
    · rfl
    · split
      · split
        · rfl
        · rfl
      · rfl

/-- Witness for claim C8: the classification theorem run on a concrete
username-shaped identifier. -/
theorem authenticateUser_lookup_classified_witness :
    (authenticateUser envEx dbAlice "alice" "Alice123" 0 noAuthFaults).lookups =
      [if envEx.isEmail "alice" then UserLookup.byEmail "alice"
       else UserLookup.byUsername "alice"] :=
  authenticateUser_lookup_classified envEx dbAlice "alice" "Alice123" 0 noAuthFaults
    (by decide) (by decide)

/-- Counterexample for claim C8 as frozen: the call with an empty identifier
is stopped by the required-fields guard and issues zero lookups, not exactly
one, so the per-call quantification fails. -/
theorem authenticateUser_lookup_cex :
    (authenticateUser envEx dbAlice "" "Alice123" 0 noAuthFaults).lookups = [] ∧
    (authenticateUser envEx dbAlice "" "Alice123" 0 noAuthFaults).lookups.length ≠ 1 :=
  ⟨rfl, by decide⟩

/-- Claim C6 (amended): the transactional write operations and
authenticateUser resolve every outcome to a success/message result value
(success = true with the fixed success message, or success = false with a
non-empty failure message), while the single-query helpers reject their
promise on a query error instead of resolving a failure value. -/
theorem storeOps_error_channels :
    (∀ env db d now f, ((createBooking env db d now f).1.success = true ∧
        (createBooking env db d now f).1.message = "Booking created successfully!") ∨
      ((createBooking env db d now f).1.success = false ∧
        (createBooking env db d now f).1.message ≠ "")) ∧
    (∀ db d now f, ((createListing db d now f).1.success = true ∧
        (createListing db d now f).1.message = "Listing created successfully!") ∨
      ((createListing db d now f).1.success = false ∧
        (createListing db d now f).1.message ≠ "")) ∧
    (∀ env db d now f, ((createUser env db d now f).1.success = true ∧
        (createUser env db d now f).1.message = "User created successfully!") ∨
      ((createUser env db d now f).1.success = false ∧
        (createUser env db d now f).1.message ≠ "")) ∧
    (∀ env db idf pw now f,
      (authenticateUser env db idf pw now f).res.success = true ∨
      ((authenticateUser env db idf pw now f).res.success = false ∧
        (authenticateUser env db idf pw now f).res.message ≠ "")) ∧
    (∀ db userId isVerified,
      updateVerificationStatus db userId isVerified true = .error "query error") ∧
    (∀ db userId fp,
      updateProfilePicture db userId fp true = .error "query error") ∧
    (∀ db username, getUserByUsername db username true = .error "query error") := by
  refine ⟨?_, ?_, ?_, ?_, ?_, ?_, ?_⟩
  · intro env db d now f
    unfold createBooking
    repeat' split
    all_goals first
      | exact Or.inl ⟨rfl, rfl⟩
      | (refine Or.inr ⟨rfl, ?_⟩
         dsimp only
         decide)
  · intro db d now f
    unfold createListing
    repeat' split
    all_goals first
      | exact Or.inl ⟨rfl, rfl⟩
      | (refine Or.inr ⟨rfl, ?_⟩
         dsimp only
         decide)
  · intro env db d now f
    unfold createUser
    repeat' split
    all_goals first
      | exact Or.inl ⟨rfl, rfl⟩
      | (refine Or.inr ⟨rfl, ?_⟩
         dsimp only
         decide)
  · intro env db idf pw now f
    unfold authenticateUser
    repeat' split
    all_goals first
      | exact Or.inl rfl
      | (refine Or.inr ⟨rfl, ?_⟩
         dsimp only
         decide)
  · intro db userId isVerified
    rfl
  · intro db userId fp
    rfl
  · intro db username
    rfl

/-- Counterexample for claim C6 as frozen: three store operations whose
promise rejects (Except.error) on a query error instead of resolving a
uniform success/message value. -/
theorem storeOps_reject_cex :
    updateVerificationStatus emptyDB 1 1 true = .error "query error" ∧
    updateProfilePicture emptyDB 1 "pic.jpg" true = .error "query error" ∧
    getUserByUsername emptyDB "alice" true = .error "query error" :=
  ⟨rfl, rfl, rfl⟩

/-- Witness for claim C3: concrete execution of the idempotence theorem on
the empty store and a concrete address. -/
theorem getOrCreateAddress_idempotent_witness :
    ∃ id db1,
      getOrCreateAddress emptyDB ⟨"Main Street", "Koper", "6000", "12"⟩ noAddrFaults
        = .ok (id, db1) ∧
      getOrCreateAddress db1 ⟨"Main Street", "Koper", "6000", "12"⟩ noAddrFaults
        = .ok (id, db1) ∧
      db1.addresses.length = emptyDB.addresses.length + 1 :=
  getOrCreateAddress_idempotent emptyDB ⟨"Main Street", "Koper", "6000", "12"⟩ rfl

end CasaBox
